import Mathlib

/-!
Shallow embedding of the routine-grid-api habit/entry domain logic
(`apps/habits/models.py`, `apps/habits/serializers.py`,
`apps/habits/views.py`, `apps/users/views.py`).

Machine integers are modelled as `Nat`/`Int`; timestamps and calendar
dates are opaque `Nat` instants; the database is an explicit `Store`
value; request handlers are functions `Store → ... → Except ApiError ...`.
-/

namespace RoutineGrid

/-- `Habit.HabitType` (`models.py`): `singular` or `timed`. -/
inductive HabitType
  | singular
  | timed
deriving DecidableEq, Repr

/-- A row of the `Habit` table (`models.py`).  `created_at`/`updated_at`
audit timestamps are not modelled (no claim mentions them). -/
structure Habit where
  id : Nat
  userId : Nat
  name : String
  description : Option String
  type : HabitType
  archivedAt : Option Nat
  color : Option String
  goalValue : Option Int
  goalUnit : Option String
deriving DecidableEq, Repr

/-- A row of the `HabitEntry` table (`models.py`). -/
structure HabitEntry where
  id : Nat
  habitId : Nat
  userId : Nat
  entryDate : Nat
  value : Int
  notes : Option String
deriving DecidableEq, Repr

/-- The relational store: the two tables plus their auto-increment
primary-key sequences. -/
structure Store where
  habits : List Habit
  entries : List HabitEntry
  nextHabitId : Nat
  nextEntryId : Nat
deriving DecidableEq, Repr

/-- Outcomes a handler can produce besides success: DRF 404, 403, 400
serializer validation failure, and the explicit 400 of the export view. -/
inductive ApiError
  | notFound
  | forbidden
  | validation (msg : String)
  | badRequest (msg : String)
deriving DecidableEq, Repr

/-- Python `str.lower()` (ASCII data in this API). -/
def strLower (v : String) : String := ⟨v.data.map Char.toLower⟩

/-! ## Habit serializer (`HabitSerializer`, serializers.py) -/

/-- `HabitSerializer.validate_name`: rejects a falsy (empty) name and a
name shorter than 3 characters. -/
def validate_name (value : String) : Except ApiError String :=
  if value = "" then
    Except.error (ApiError.validation "Name is required.")
  else if value.length < 3 then
    Except.error (ApiError.validation "Name must be at least 3 characters long.")
  else Except.ok value

/-- The DRF field pipeline for `name` (CharField, max_length 100,
blank not allowed), followed by the `validate_name` method. -/
def runNameField (value : String) : Except ApiError String :=
  if value = "" then
    Except.error (ApiError.validation "This field may not be blank.")
  else if 100 < value.length then
    Except.error (ApiError.validation "Ensure this field has no more than 100 characters.")
  else validate_name value

/-- An inbound habit payload: `some` marks a field present in the request
body (`some none` supplies an explicit null for a nullable field). -/
structure HabitPayload where
  name : Option String := none
  description : Option (Option String) := none
  type : Option HabitType := none
  archivedAt : Option (Option Nat) := none
  color : Option (Option String) := none
  goalValue : Option (Option Int) := none
  goalUnit : Option (Option String) := none
deriving Repr

/-- Field validator for `goal_value` (PositiveIntegerField: ≥ 0). -/
def habitRunValidationGoal (p : HabitPayload) : Except ApiError Unit :=
  match p.goalValue with
  | some (some v) =>
      if v < 0 then
        Except.error (ApiError.validation "goal_value: Ensure this value is greater than or equal to 0.")
      else Except.ok ()
  | _ => Except.ok ()

/-- Field validators for the optional habit fields after `name`
(`color` max_length 7, then `goal_value` non-negative). -/
def habitRunValidationRest (p : HabitPayload) : Except ApiError Unit :=
  match p.color with
  | some (some c) =>
      if 7 < c.length then
        Except.error (ApiError.validation "color: Ensure this field has no more than 7 characters.")
      else habitRunValidationGoal p
  | _ => habitRunValidationGoal p

/-- `HabitSerializer` validation: `name` is the only required writable
field (every other model field has a default or is nullable); supplied
fields run their field validators in declared field order, `name` first. -/
def habitRunValidation (p : HabitPayload) (patchMode : Bool) : Except ApiError Unit :=
  match p.name with
  | none =>
      if patchMode then habitRunValidationRest p
      else Except.error (ApiError.validation "name: This field is required.")
  | some n =>
      match runNameField n with
      | Except.error e => Except.error e
      | Except.ok _ => habitRunValidationRest p

/-- `ModelSerializer.update`: set each supplied field on the instance
(unsupplied fields keep the stored value). -/
def applyHabitPayload (h : Habit) (p : HabitPayload) : Habit :=
  { h with
    name := p.name.getD h.name
    description := p.description.getD h.description
    type := p.type.getD h.type
    archivedAt := p.archivedAt.getD h.archivedAt
    color := p.color.getD h.color
    goalValue := p.goalValue.getD h.goalValue
    goalUnit := p.goalUnit.getD h.goalUnit }

/-! ## Habit view set (`HabitViewSet`, views.py) -/

/-- `HabitViewSet.get_queryset` for detail actions:
`Habit.objects.filter(user=user)` (no archived filter outside `list`). -/
def habitDetailQueryset (s : Store) (u : Nat) : List Habit :=
  s.habits.filter (fun h => h.userId == u)

/-- DRF `get_object`: look the pk up inside the user-filtered queryset
(404 when absent), then run the `IsOwner` object permission (403 when the
owner differs — unreachable, the queryset is already owner-filtered). -/
def habitGetObject (s : Store) (u pk : Nat) : Except ApiError Habit :=
  match (habitDetailQueryset s u).find? (fun h => h.id == pk) with
  | none => Except.error ApiError.notFound
  | some h =>
      if h.userId == u then Except.ok h
      else Except.error ApiError.forbidden

/-- `Model.save()` on an existing row: replace the row with the same pk. -/
def saveHabitRow (s : Store) (h : Habit) : Store :=
  { s with habits := s.habits.map (fun x => if x.id == h.id then h else x) }

/-- `HabitViewSet.get_queryset` for the `list` action plus the model
ordering: owner filter, `archived` query-parameter filter
(absent → active-only; lowercased value in true/1 → archived-only;
in false/0 → active-only; anything else → no archived filter),
then `order_by("name")`. -/
def habitListFiltered (s : Store) (u : Nat) (archivedParam : Option String) : List Habit :=
  let qs := s.habits.filter (fun h => h.userId == u)
  match archivedParam with
  | none => qs.filter (fun h => h.archivedAt.isNone)
  | some p =>
      if strLower p = "true" ∨ strLower p = "1" then
        qs.filter (fun h => h.archivedAt.isSome)
      else if strLower p = "false" ∨ strLower p = "0" then
        qs.filter (fun h => h.archivedAt.isNone)
      else qs

/-- The `list` response: the filtered queryset in `order_by("name")`
order. -/
def habitList (s : Store) (u : Nat) (archivedParam : Option String) : List Habit :=
  (habitListFiltered s u archivedParam).mergeSort (fun a b => decide (a.name ≤ b.name))

/-- `HabitViewSet.create` / `perform_create`: validate, then insert a new
row owned by the caller, model defaults filling absent fields
(`type` defaults to singular, `archived_at` to null). -/
def habitCreate (s : Store) (u : Nat) (p : HabitPayload) : Except ApiError (Store × Habit) :=
  match habitRunValidation p false with
  | Except.error e => Except.error e
  | Except.ok _ =>
      let h : Habit :=
        { id := s.nextHabitId
          userId := u
          name := p.name.getD ""
          description := p.description.getD none
          type := p.type.getD HabitType.singular
          archivedAt := p.archivedAt.getD none
          color := p.color.getD none
          goalValue := p.goalValue.getD none
          goalUnit := p.goalUnit.getD none }
      Except.ok ({ s with habits := s.habits ++ [h], nextHabitId := s.nextHabitId + 1 }, h)

/-- `HabitViewSet.update` / `partial_update`: fetch through the
owner-filtered queryset, validate, set the supplied fields, save. -/
def habitUpdate (s : Store) (u pk : Nat) (p : HabitPayload) (patchMode : Bool) :
    Except ApiError (Store × Habit) :=
  match habitGetObject s u pk with
  | Except.error e => Except.error e
  | Except.ok h =>
      match habitRunValidation p patchMode with
      | Except.error e => Except.error e
      | Except.ok _ =>
          let h2 := applyHabitPayload h p
          Except.ok (saveHabitRow s h2, h2)

/-- `HabitViewSet.destroy` with `perform_destroy`: the code calls
`instance.delete()`, removing the habit row and (FK `on_delete=CASCADE`)
all of its entries, then answers 204 No Content. -/
def habitDestroy (s : Store) (u pk : Nat) : Except ApiError Store :=
  match habitGetObject s u pk with
  | Except.error e => Except.error e
  | Except.ok h =>
      Except.ok
        { s with
          habits := s.habits.filter (fun x => !(x.id == h.id))
          entries := s.entries.filter (fun e => !(e.habitId == h.id)) }

/-- `HabitViewSet.archive`: set `archived_at := now` and save only when
it is currently null; either way respond with the serialized habit. -/
def habitArchive (s : Store) (u pk : Nat) (now : Nat) : Except ApiError (Store × Habit) :=
  match habitGetObject s u pk with
  | Except.error e => Except.error e
  | Except.ok h =>
      if h.archivedAt = none then
        let h2 := { h with archivedAt := some now }
        Except.ok (saveHabitRow s h2, h2)
      else Except.ok (s, h)

/-- `HabitViewSet.unarchive`: reset `archived_at` to null and save only
when it is currently non-null; either way respond with the habit. -/
def habitUnarchive (s : Store) (u pk : Nat) : Except ApiError (Store × Habit) :=
  match habitGetObject s u pk with
  | Except.error e => Except.error e
  | Except.ok h =>
      if h.archivedAt ≠ none then
        let h2 := { h with archivedAt := none }
        Except.ok (saveHabitRow s h2, h2)
      else Except.ok (s, h)

/-! ## Habit entry serializer (`HabitEntrySerializer`, serializers.py) -/

/-- An inbound entry payload: `some` marks a field present in the request
body; `habit` carries the referenced habit pk. -/
structure EntryPayload where
  habit : Option Nat := none
  entryDate : Option Nat := none
  value : Option Int := none
  notes : Option (Option String) := none
deriving Repr

/-- The dict handed to `HabitEntrySerializer.validate`: the writable
fields that survived field-level validation. -/
structure EntryAttrs where
  habit : Option Habit := none
  entryDate : Option Nat := none
  value : Option Int := none
  notes : Option (Option String) := none
deriving DecidableEq, Repr

/-- `HabitEntrySerializer.validate_habit`: the referenced habit must be
owned by the requesting user (checked first), then must not be archived. -/
def validate_habit (habitInstance : Habit) (requestUser : Nat) : Except ApiError Habit :=
  if habitInstance.userId ≠ requestUser then
    Except.error (ApiError.validation "You can only create entries for your own habits.")
  else if habitInstance.archivedAt ≠ none then
    Except.error (ApiError.validation "Cannot create entries for archived habits.")
  else Except.ok habitInstance

/-- The `habit` field (`PrimaryKeyRelatedField` over all habits):
required unless this is a partial update; resolves the pk against the
whole habit table, then runs `validate_habit`. -/
def checkHabitField (s : Store) (u : Nat) (p : EntryPayload) (patchMode : Bool) :
    Except ApiError (Option Habit) :=
  match p.habit with
  | none =>
      if patchMode then Except.ok none
      else Except.error (ApiError.validation "habit: This field is required.")
  | some hid =>
      match s.habits.find? (fun x => x.id == hid) with
      | none => Except.error (ApiError.validation "habit: Invalid pk - object does not exist.")
      | some hObj =>
          match validate_habit hObj u with
          | Except.error e => Except.error e
          | Except.ok hOk => Except.ok (some hOk)

/-- The `entry_date` field (DateField): required unless partial. -/
def checkEntryDateField (p : EntryPayload) (patchMode : Bool) : Except ApiError (Option Nat) :=
  match p.entryDate with
  | none =>
      if patchMode then Except.ok none
      else Except.error (ApiError.validation "entry_date: This field is required.")
  | some d => Except.ok (some d)

/-- The `value` field (PositiveIntegerField with a model default, hence
never required): when supplied it must be ≥ 0. -/
def checkValueField (p : EntryPayload) : Except ApiError (Option Int) :=
  match p.value with
  | none => Except.ok none
  | some v =>
      if v < 0 then
        Except.error (ApiError.validation "value: Ensure this value is greater than or equal to 0.")
      else Except.ok (some v)

/-- `Serializer.to_internal_value`: run the writable fields in declared
order (`habit`, `entry_date`, `value`, `notes`). -/
def entryToInternalValue (s : Store) (u : Nat) (p : EntryPayload) (patchMode : Bool) :
    Except ApiError EntryAttrs :=
  match checkHabitField s u p patchMode with
  | Except.error e => Except.error e
  | Except.ok habitOpt =>
      match checkEntryDateField p patchMode with
      | Except.error e => Except.error e
      | Except.ok dateOpt =>
          match checkValueField p with
          | Except.error e => Except.error e
          | Except.ok valueOpt =>
              Except.ok { habit := habitOpt, entryDate := dateOpt, value := valueOpt, notes := p.notes }

/-- DRF `UniqueTogetherValidator.filter_queryset` side effect: on an
update, an unprovided unique-together field is written back into `attrs`
from the existing instance. -/
def fillFromInstance (s : Store) (inst : Option HabitEntry) (attrs : EntryAttrs) : EntryAttrs :=
  match inst with
  | none => attrs
  | some e =>
      { attrs with
        habit :=
          match attrs.habit with
          | some h => some h
          | none => s.habits.find? (fun x => x.id == e.habitId)
        entryDate :=
          match attrs.entryDate with
          | some d => some d
          | none => some e.entryDate }

/-- The `UniqueTogetherValidator` generated from
`HabitEntry.Meta.unique_together = [["habit", "entry_date"]]`: fill
missing fields from the instance, exclude the instance itself, and fail
when another row already holds the same (habit, entry_date) pair. -/
def uniqueClash (s : Store) (inst : Option HabitEntry) (hObj : Habit) (d : Nat) :
    List HabitEntry :=
  let clash := s.entries.filter (fun e => e.habitId == hObj.id && e.entryDate == d)
  match inst with
  | none => clash
  | some e0 => clash.filter (fun e => !(e.id == e0.id))

/-- The exists check of the unique-together validator: any other row
holding the same (habit, entry_date) pair makes the validator fail. -/
def entryUniqueValidator (s : Store) (inst : Option HabitEntry) (attrs : EntryAttrs) :
    Except ApiError EntryAttrs :=
  let attrs2 := fillFromInstance s inst attrs
  match attrs2.habit, attrs2.entryDate with
  | some hObj, some d =>
      if (uniqueClash s inst hObj d).isEmpty then Except.ok attrs2
      else Except.error (ApiError.validation "The fields habit, entry_date must make a unique set.")
  | _, _ => Except.ok attrs2

/-- `HabitEntrySerializer.validate`: when both the habit and the value
are in `attrs`, a singular habit requires value = 1 and a timed habit
requires value > 0. -/
def entryValidate (attrs : EntryAttrs) : Except ApiError EntryAttrs :=
  match attrs.habit, attrs.value with
  | some hObj, some v =>
      if hObj.type = HabitType.singular ∧ v ≠ 1 then
        Except.error (ApiError.validation "Value for singular habits must be 1.")
      else if hObj.type = HabitType.timed ∧ v ≤ 0 then
        Except.error (ApiError.validation "Value for timed habits must be greater than 0.")
      else Except.ok attrs
  | _, _ => Except.ok attrs

/-- `Serializer.run_validation` for entries: field conversion and
field validators, then the class-level unique-together validator, then
the cross-field `validate` method. -/
def entryRunValidation (s : Store) (u : Nat) (inst : Option HabitEntry)
    (p : EntryPayload) (patchMode : Bool) : Except ApiError EntryAttrs :=
  match entryToInternalValue s u p patchMode with
  | Except.error e => Except.error e
  | Except.ok attrs =>
      match entryUniqueValidator s inst attrs with
      | Except.error e => Except.error e
      | Except.ok attrs2 => entryValidate attrs2

/-! ## Habit entry view set (`HabitEntryViewSet`, views.py) -/

/-- DRF `get_object` for entries: pk lookup inside the user-filtered
queryset (404 when absent), then the `IsOwner` permission. -/
def entryGetObject (s : Store) (u pk : Nat) : Except ApiError HabitEntry :=
  match (s.entries.filter (fun e => e.userId == u)).find? (fun e => e.id == pk) with
  | none => Except.error ApiError.notFound
  | some e =>
      if e.userId == u then Except.ok e
      else Except.error ApiError.forbidden

/-- `HabitEntryViewSet.create` (`serializer.save()` with the request
user): validate, then insert a new row; an absent `value` takes the model
default 1 and absent `notes` stays null. -/
def entryCreate (s : Store) (u : Nat) (p : EntryPayload) : Except ApiError (Store × HabitEntry) :=
  match entryRunValidation s u none p false with
  | Except.error e => Except.error e
  | Except.ok attrs =>
      match attrs.habit, attrs.entryDate with
      | some hObj, some d =>
          let e : HabitEntry :=
            { id := s.nextEntryId
              habitId := hObj.id
              userId := u
              entryDate := d
              value := attrs.value.getD 1
              notes := attrs.notes.getD none }
          Except.ok ({ s with entries := s.entries ++ [e], nextEntryId := s.nextEntryId + 1 }, e)
      | _, _ => Except.error (ApiError.validation "habit: This field is required.")

/-- `HabitEntryViewSet.update` / `partial_update`: fetch through the
owner-filtered queryset, run serializer validation against the store,
set the validated fields on the instance, save the row. -/
def entryUpdate (s : Store) (u pk : Nat) (p : EntryPayload) (patchMode : Bool) :
    Except ApiError (Store × HabitEntry) :=
  match entryGetObject s u pk with
  | Except.error e => Except.error e
  | Except.ok e0 =>
      match entryRunValidation s u (some e0) p patchMode with
      | Except.error e => Except.error e
      | Except.ok attrs =>
          let e2 : HabitEntry :=
            { e0 with
              habitId := (attrs.habit.map (fun h => h.id)).getD e0.habitId
              entryDate := attrs.entryDate.getD e0.entryDate
              value := attrs.value.getD e0.value
              notes := attrs.notes.getD e0.notes }
          Except.ok
            ({ s with entries := s.entries.map (fun x => if x.id == e2.id then e2 else x) }, e2)

/-- `HabitEntryViewSet.destroy`: hard delete of the caller's entry row. -/
def entryDestroy (s : Store) (u pk : Nat) : Except ApiError Store :=
  match entryGetObject s u pk with
  | Except.error e => Except.error e
  | Except.ok e0 =>
      Except.ok { s with entries := s.entries.filter (fun x => !(x.id == e0.id)) }

/-! ## Data export (`export_user_data`, apps/users/views.py) -/

/-- The format gate of `export_user_data`: the `format` query parameter
(defaulting to the empty string when absent) is lowercased and must then
be `csv` or `json`, otherwise the view answers 400. -/
def exportFormatCheck (formatParam : Option String) : Except ApiError String :=
  let exportFormat := strLower (formatParam.getD "")
  if exportFormat = "csv" ∨ exportFormat = "json" then Except.ok exportFormat
  else Except.error (ApiError.badRequest "Invalid format. Use csv or json.")

/-- `export_user_data`: after the format gate, a pure read serializing
the caller's habits (active and archived) and entries. -/
def export_user_data (s : Store) (u : Nat) (formatParam : Option String) :
    Except ApiError (String × List Habit × List HabitEntry) :=
  match exportFormatCheck formatParam with
  | Except.error e => Except.error e
  | Except.ok fmt =>
      Except.ok (fmt, s.habits.filter (fun h => h.userId == u),
        s.entries.filter (fun e => e.userId == u))

/-! ## Shared sample data and helper lemmas -/

/-- A timed habit owned by user 7. -/
def habitBook : Habit :=
  { id := 1, userId := 7, name := "Read Book", description := none,
    type := HabitType.timed, archivedAt := none, color := none,
    goalValue := none, goalUnit := none }

/-- An entry of 45 for `habitBook` on day 100. -/
def entryBook : HabitEntry :=
  { id := 1, habitId := 1, userId := 7, entryDate := 100, value := 45, notes := none }

/-- A store holding one timed habit of user 7 with one entry. -/
def storeBook : Store :=
  { habits := [habitBook], entries := [entryBook], nextHabitId := 2, nextEntryId := 2 }

/-- An archived singular habit owned by user 7. -/
def habitOld : Habit :=
  { id := 2, userId := 7, name := "Old Project", description := none,
    type := HabitType.singular, archivedAt := some 50, color := none,
    goalValue := none, goalUnit := none }

/-- An active singular habit owned by user 9. -/
def habitOther : Habit :=
  { id := 3, userId := 9, name := "Other Habit", description := none,
    type := HabitType.singular, archivedAt := none, color := none,
    goalValue := none, goalUnit := none }

/-- A store mixing active, archived and foreign-owned habits. -/
def storeMixed : Store :=
  { habits := [habitBook, habitOld, habitOther], entries := [entryBook],
    nextHabitId := 4, nextEntryId := 2 }

/-- Did the handler answer with a serializer validation failure (HTTP 400)? -/
def isValidationError {α : Type} : Except ApiError α → Bool
  | Except.error (ApiError.validation _) => true
  | _ => false

theorem isValidationError_iff {α : Type} {r : Except ApiError α} :
    isValidationError r = true ↔ ∃ m, r = Except.error (ApiError.validation m) := by
  cases r with
  | error e => cases e <;> simp [isValidationError]
  | ok a => simp [isValidationError]

theorem habitGetObject_ok_inv {s : Store} {u pk : Nat} {h : Habit}
    (hg : habitGetObject s u pk = Except.ok h) :
    h ∈ s.habits ∧ h.userId = u ∧ h.id = pk := by
  unfold habitGetObject habitDetailQueryset at hg
  cases hf : (s.habits.filter fun x => x.userId == u).find? (fun x => x.id == pk) with
  | none => rw [hf] at hg; cases hg
  | some h0 =>
      rw [hf] at hg
      have hp := List.find?_some hf
      have hm := List.mem_of_find?_eq_some hf
      rw [List.mem_filter] at hm
      simp [hm.2] at hg
      subst hg
      exact ⟨hm.1, by simpa using hm.2, by simpa using hp⟩

theorem entryGetObject_ok_inv {s : Store} {u pk : Nat} {e : HabitEntry}
    (hg : entryGetObject s u pk = Except.ok e) :
    e ∈ s.entries ∧ e.userId = u ∧ e.id = pk := by
  unfold entryGetObject at hg
  cases hf : (s.entries.filter fun x => x.userId == u).find? (fun x => x.id == pk) with
  | none => rw [hf] at hg; cases hg
  | some e0 =>
      rw [hf] at hg
      have hp := List.find?_some hf
      have hm := List.mem_of_find?_eq_some hf
      rw [List.mem_filter] at hm
      simp [hm.2] at hg
      subst hg
      exact ⟨hm.1, by simpa using hm.2, by simpa using hp⟩

theorem habitGetObject_notFound {s : Store} {u pk : Nat}
    (hno : ∀ h ∈ s.habits, h.id = pk → h.userId ≠ u) :
    habitGetObject s u pk = Except.error ApiError.notFound := by
  unfold habitGetObject habitDetailQueryset
  have : (s.habits.filter fun x => x.userId == u).find? (fun x => x.id == pk) = none := by
    rw [List.find?_eq_none]
    intro x hx
    rw [List.mem_filter] at hx
    simp only [beq_iff_eq] at hx ⊢
    intro hxid
    exact hno x hx.1 hxid hx.2
  rw [this]

theorem entryGetObject_notFound {s : Store} {u pk : Nat}
    (hno : ∀ e ∈ s.entries, e.id = pk → e.userId ≠ u) :
    entryGetObject s u pk = Except.error ApiError.notFound := by
  unfold entryGetObject
  have : (s.entries.filter fun x => x.userId == u).find? (fun x => x.id == pk) = none := by
    rw [List.find?_eq_none]
    intro x hx
    rw [List.mem_filter] at hx
    simp only [beq_iff_eq] at hx ⊢
    intro hxid
    exact hno x hx.1 hxid hx.2
  rw [this]

/-! ## Claim theorems -/

/-- C1: evaluation of the Destroy operation on a caller-owned habit: the
code removes the habit row from the store (and cascades away its entries)
instead of setting `archived_at` — contradicting the soft-delete claim,
the view docstring and the test suite. -/
theorem destroy_removes_row :
    habitDestroy storeBook 7 1 =
      Except.ok { habits := [], entries := [], nextHabitId := 2, nextEntryId := 2 } := by
  rfl

/-- C6: the archive action on an already-archived habit and the unarchive
action on an active habit both leave the store unchanged and answer with
the current representation of the habit — idempotent no-ops. -/
theorem archive_unarchive_idempotent (s : Store) (u pk now : Nat) (h : Habit)
    (hget : habitGetObject s u pk = Except.ok h) :
    (h.archivedAt ≠ none → habitArchive s u pk now = Except.ok (s, h)) ∧
    (h.archivedAt = none → habitUnarchive s u pk = Except.ok (s, h)) := by
  constructor
  · intro ha
    unfold habitArchive
    rw [hget]
    simp [ha]
  · intro ha
    unfold habitUnarchive
    rw [hget]
    simp [ha]

/-- C6 witness: in `storeMixed`, archiving the archived habit 2 and
unarchiving the active habit 1 are both no-ops. -/
theorem archive_unarchive_idempotent_witness :
    habitArchive storeMixed 7 2 999 = Except.ok (storeMixed, habitOld) ∧
    habitUnarchive storeMixed 7 1 = Except.ok (storeMixed, habitBook) :=
  ⟨(archive_unarchive_idempotent storeMixed 7 2 999 habitOld (by rfl)).1 (by decide),
   (archive_unarchive_idempotent storeMixed 7 1 999 habitBook (by rfl)).2 (by decide)⟩

/-- C4: a detail request (retrieve, update, destroy, archive, unarchive)
for an id that does not exist or belongs to another user yields a
not-found outcome for habits and entries alike; the object-permission
forbidden outcome is unreachable because the visible set is filtered to
the caller's rows before the lookup. -/
theorem nonowned_is_not_found :
    (∀ (s : Store) (u pk : Nat),
      (∀ h ∈ s.habits, h.id = pk → h.userId ≠ u) →
      (∀ e ∈ s.entries, e.id = pk → e.userId ≠ u) →
        habitGetObject s u pk = Except.error ApiError.notFound ∧
        (∀ p pm, habitUpdate s u pk p pm = Except.error ApiError.notFound) ∧
        habitDestroy s u pk = Except.error ApiError.notFound ∧
        (∀ now, habitArchive s u pk now = Except.error ApiError.notFound) ∧
        habitUnarchive s u pk = Except.error ApiError.notFound ∧
        entryGetObject s u pk = Except.error ApiError.notFound ∧
        (∀ p pm, entryUpdate s u pk p pm = Except.error ApiError.notFound) ∧
        entryDestroy s u pk = Except.error ApiError.notFound) ∧
    (∀ (s : Store) (u pk : Nat),
      habitGetObject s u pk ≠ Except.error ApiError.forbidden ∧
      entryGetObject s u pk ≠ Except.error ApiError.forbidden) := by
  constructor
  · intro s u pk hh he
    have hgh := habitGetObject_notFound hh
    have hge := entryGetObject_notFound he
    refine ⟨hgh, ?_, ?_, ?_, ?_, hge, ?_, ?_⟩
    · intro p pm; unfold habitUpdate; rw [hgh]
    · unfold habitDestroy; rw [hgh]
    · intro now; unfold habitArchive; rw [hgh]
    · unfold habitUnarchive; rw [hgh]
    · intro p pm; unfold entryUpdate; rw [hge]
    · unfold entryDestroy; rw [hge]
  · intro s u pk
    constructor
    · intro hc
      cases hg : habitGetObject s u pk with
      | error e =>
          rw [hg] at hc
          cases hc
          unfold habitGetObject habitDetailQueryset at hg
          cases hf : (s.habits.filter fun x => x.userId == u).find? (fun x => x.id == pk) with
          | none => rw [hf] at hg; cases hg
          | some h0 =>
              rw [hf] at hg
              have hm := List.mem_of_find?_eq_some hf
              rw [List.mem_filter] at hm
              simp [hm.2] at hg
      | ok h => rw [hg] at hc; cases hc
    · intro hc
      cases hg : entryGetObject s u pk with
      | error e =>
          rw [hg] at hc
          cases hc
          unfold entryGetObject at hg
          cases hf : (s.entries.filter fun x => x.userId == u).find? (fun x => x.id == pk) with
          | none => rw [hf] at hg; cases hg
          | some e0 =>
              rw [hf] at hg
              have hm := List.mem_of_find?_eq_some hf
              rw [List.mem_filter] at hm
              simp [hm.2] at hg
      | ok e => rw [hg] at hc; cases hc

/-- C4 witness: user 8 requesting habit 3 (which exists but is owned by
user 9) and entry 1 (owned by user 7) in `storeMixed` gets not-found. -/
theorem nonowned_is_not_found_witness :
    habitGetObject storeMixed 8 3 = Except.error ApiError.notFound ∧
    entryGetObject storeMixed 8 1 = Except.error ApiError.notFound :=
  ⟨((nonowned_is_not_found.1 storeMixed 8 3 (by decide) (by decide)).1),
   ((nonowned_is_not_found.1 storeMixed 8 1 (by decide) (by decide)).2.2.2.2.2.1)⟩

/-- C5: on entry creation, a referenced habit not owned by the caller is
rejected with the habit-field ownership validation error even when it is
also archived (ownership is checked first); a caller-owned but archived
habit is rejected with the archived validation error. -/
theorem entry_owner_before_archived (s : Store) (u : Nat) (p : EntryPayload)
    (hid : Nat) (hOb : Habit)
    (hp : p.habit = some hid)
    (hfind : s.habits.find? (fun x => x.id == hid) = some hOb) :
    (hOb.userId ≠ u →
      entryCreate s u p =
        Except.error (ApiError.validation "You can only create entries for your own habits.")) ∧
    (hOb.userId = u → hOb.archivedAt ≠ none →
      entryCreate s u p =
        Except.error (ApiError.validation "Cannot create entries for archived habits.")) := by
  constructor
  · intro hne
    unfold entryCreate entryRunValidation entryToInternalValue checkHabitField validate_habit
    simp [hp, hfind, hne]
  · intro he hne
    unfold entryCreate entryRunValidation entryToInternalValue checkHabitField validate_habit
    simp [hp, hfind, he, hne]

/-- C5 witness: user 7 creating an entry against user 9's habit 3 gets
the ownership error; against their own archived habit 2, the archived
error. -/
theorem entry_owner_before_archived_witness :
    entryCreate storeMixed 7 { habit := some 3, entryDate := some 5, value := some 1 } =
      Except.error (ApiError.validation "You can only create entries for your own habits.") ∧
    entryCreate storeMixed 7 { habit := some 2, entryDate := some 5, value := some 1 } =
      Except.error (ApiError.validation "Cannot create entries for archived habits.") :=
  ⟨(entry_owner_before_archived storeMixed 7 _ 3 habitOther rfl (by rfl)).1 (by decide),
   (entry_owner_before_archived storeMixed 7 _ 2 habitOld rfl (by rfl)).2 (by decide) (by decide)⟩

/-- C7: the habit list contains exactly the caller's habits selected by
the `archived` parameter (absent → active-only; true/1 → archived-only;
false/0 → active-only; any other value → all), sorted by name
ascending. -/
theorem habit_list_characterization : ∀ (s : Store) (u : Nat) (ap : Option String),
    (∀ h : Habit, h ∈ habitList s u ap ↔
      (h ∈ s.habits ∧ h.userId = u ∧
        match ap with
        | none => h.archivedAt = none
        | some pstr =>
            if strLower pstr = "true" ∨ strLower pstr = "1" then h.archivedAt ≠ none
            else if strLower pstr = "false" ∨ strLower pstr = "0" then h.archivedAt = none
            else True)) ∧
    List.Sorted (fun a b : Habit => a.name ≤ b.name) (habitList s u ap) := by
  intro s u ap
  constructor
  · intro h
    unfold habitList
    rw [List.mem_mergeSort]
    cases ap with
    | none =>
        simp [habitListFiltered, List.mem_filter, Option.isNone_iff_eq_none, and_assoc]
        tauto
    | some pstr =>
        by_cases h1 : strLower pstr = "true" ∨ strLower pstr = "1"
        · simp [habitListFiltered, h1, List.mem_filter, Option.isSome_iff_ne_none, and_assoc]
          tauto
        · by_cases h2 : strLower pstr = "false" ∨ strLower pstr = "0"
          · simp [habitListFiltered, h1, h2, List.mem_filter, Option.isNone_iff_eq_none,
              and_assoc]
            tauto
          · simp [habitListFiltered, h1, h2, List.mem_filter, and_assoc]
  · have htr : ∀ a b c : Habit, decide (a.name ≤ b.name) = true →
        decide (b.name ≤ c.name) = true → decide (a.name ≤ c.name) = true := by
      intro a b c hab hbc
      simp only [decide_eq_true_eq] at hab hbc ⊢
      exact le_trans hab hbc
    have hto : ∀ a b : Habit,
        (decide (a.name ≤ b.name) || decide (b.name ≤ a.name)) = true := by
      intro a b
      rcases le_total a.name b.name with hle | hle <;> simp [hle]
    have hs := List.sorted_mergeSort htr hto (habitListFiltered s u ap)
    exact hs.imp (by intro a b hab; simpa using hab)

/-- C7 witness: with the `archived` parameter absent, user 7's default
list over `storeMixed` contains the active habit 1 and not the archived
habit 2. -/
theorem habit_list_characterization_witness :
    habitBook ∈ habitList storeMixed 7 none ∧
    habitOld ∉ habitList storeMixed 7 none :=
  ⟨((habit_list_characterization storeMixed 7 none).1 habitBook).mpr
      ⟨by decide, rfl, rfl⟩,
   fun hmem => absurd
      (((habit_list_characterization storeMixed 7 none).1 habitOld).mp hmem).2.2
      (by decide)⟩

/-- C8 counterexample: the claim requires every `format` value other than
the exact strings `csv`/`json` (case variants included) to be a
bad-request; but the view lowercases the parameter first, so `CSV` is
accepted and the export is produced. -/
theorem export_uppercase_accepted :
    export_user_data storeBook 7 (some "CSV") =
      Except.ok ("csv", [habitBook], [entryBook]) := by
  rfl

/-- C8 (amended): the `format` parameter is compared after lowercasing:
a value whose lowercase form is `csv` or `json` is accepted; any other
value, and an absent parameter, yield the bad-request error and no
export is produced. -/
theorem export_format_lowercased (s : Store) (u : Nat) :
    (∀ v : String, strLower v ≠ "csv" → strLower v ≠ "json" →
      export_user_data s u (some v) =
        Except.error (ApiError.badRequest "Invalid format. Use csv or json.")) ∧
    export_user_data s u none =
      Except.error (ApiError.badRequest "Invalid format. Use csv or json.") ∧
    (∀ v : String, strLower v = "csv" ∨ strLower v = "json" →
      export_user_data s u (some v) =
        Except.ok (strLower v, s.habits.filter (fun h => h.userId == u),
          s.entries.filter (fun e => e.userId == u))) := by
  refine ⟨?_, ?_, ?_⟩
  · intro v h1 h2
    unfold export_user_data exportFormatCheck
    simp [h1, h2]
  · unfold export_user_data exportFormatCheck
    have : strLower "" = "" := rfl
    simp [this]
  · intro v hv
    unfold export_user_data exportFormatCheck
    simp [hv]

/-- C8 witness: in `storeBook`, format `xml` and an absent format are
both rejected with the bad-request error, and format `JSON` is accepted
(lowercased). -/
theorem export_format_lowercased_witness :
    export_user_data storeBook 7 (some "xml") =
      Except.error (ApiError.badRequest "Invalid format. Use csv or json.") ∧
    export_user_data storeBook 7 none =
      Except.error (ApiError.badRequest "Invalid format. Use csv or json.") ∧
    export_user_data storeBook 7 (some "JSON") =
      Except.ok ("json", [habitBook], [entryBook]) :=
  ⟨(export_format_lowercased storeBook 7).1 "xml" (by decide) (by decide),
   (export_format_lowercased storeBook 7).2.1,
   by
    have := (export_format_lowercased storeBook 7).2.2 "JSON" (Or.inr (by decide))
    simpa [storeBook, habitBook, entryBook] using this⟩

/-- Every stored habit has a name of at least 3 characters. -/
def habitNamesOk (s : Store) : Prop := ∀ h ∈ s.habits, 3 ≤ h.name.length

theorem runNameField_ok_inv {n m : String} (h : runNameField n = Except.ok m) :
    3 ≤ n.length := by
  unfold runNameField validate_name at h
  by_cases h1 : n = ""
  · simp [h1] at h
  · by_cases h2 : 100 < n.length
    · simp [h1, h2] at h
    · by_cases h3 : n.length < 3
      · simp [h1, h2, h3] at h
      · omega

theorem habitRunValidation_ok_inv {p : HabitPayload} {pm : Bool}
    (h : habitRunValidation p pm = Except.ok ()) :
    (∀ n, p.name = some n → 3 ≤ n.length) ∧ (p.name = none → pm = true) := by
  constructor
  · intro n hn
    unfold habitRunValidation at h
    rw [hn] at h
    cases hr : runNameField n with
    | error e => simp [hr] at h
    | ok m => exact runNameField_ok_inv hr
  · intro hn
    unfold habitRunValidation at h
    rw [hn] at h
    cases pm with
    | false => simp at h
    | true => rfl

/-- C9: habit creation with an absent, empty or under-3-character name is
rejected with a validation error, and the ≥ 3 name-length invariant over
the habit table is preserved by both create and (full or partial)
update. -/
theorem habit_name_min_three (s : Store) (u : Nat) (p : HabitPayload) :
    ((p.name = none ∨ ∃ n, p.name = some n ∧ n.length < 3) →
      isValidationError (habitCreate s u p) = true) ∧
    (habitNamesOk s →
      (∀ s2 h2, habitCreate s u p = Except.ok (s2, h2) → habitNamesOk s2) ∧
      (∀ pk pm s2 h2, habitUpdate s u pk p pm = Except.ok (s2, h2) → habitNamesOk s2)) := by
  constructor
  · intro hshort
    rcases hshort with hnone | ⟨n, hsome, hlen⟩
    · unfold habitCreate habitRunValidation
      simp [hnone, isValidationError]
    · unfold habitCreate habitRunValidation runNameField validate_name
      by_cases hempty : n = ""
      · simp [hsome, hempty, isValidationError]
      · have h2 : ¬ (100 < n.length) := by omega
        simp [hsome, hempty, h2, hlen, isValidationError]
  · intro hok
    constructor
    · intro s2 h2 hc
      unfold habitCreate at hc
      cases hv : habitRunValidation p false with
      | error e => rw [hv] at hc; simp at hc
      | ok a =>
          rw [hv] at hc
          simp at hc
          obtain ⟨hs2, -⟩ := hc
          have hinv := habitRunValidation_ok_inv (by rw [hv])
          cases hn : p.name with
          | none => exact absurd (hinv.2 hn) (by simp)
          | some n =>
              intro x hx
              rw [← hs2] at hx
              simp only [List.mem_append, List.mem_singleton] at hx
              rcases hx with hx | hx
              · exact hok x hx
              · rw [hx]
                simpa [hn] using hinv.1 n hn
    · intro pk pm s2 h2 hc
      unfold habitUpdate at hc
      cases hg : habitGetObject s u pk with
      | error e => rw [hg] at hc; simp at hc
      | ok h0 =>
          rw [hg] at hc
          cases hv : habitRunValidation p pm with
          | error e => rw [hv] at hc; simp at hc
          | ok a =>
              rw [hv] at hc
              simp at hc
              obtain ⟨hs2, -⟩ := hc
              have hinv := habitRunValidation_ok_inv (by rw [hv])
              have hm0 := (habitGetObject_ok_inv hg).1
              intro x hx
              rw [← hs2] at hx
              unfold saveHabitRow at hx
              simp only [List.mem_map] at hx
              obtain ⟨y, hy, hxy⟩ := hx
              by_cases hcase : (y.id == (applyHabitPayload h0 p).id) = true
              · rw [hcase] at hxy
                simp only [if_true] at hxy
                rw [← hxy]
                unfold applyHabitPayload
                cases hn : p.name with
                | none => simpa [hn] using hok h0 hm0
                | some n => simpa [hn] using hinv.1 n hn
              · rw [Bool.not_eq_true] at hcase
                rw [hcase] at hxy
                simp only [Bool.false_eq_true, if_false] at hxy
                rw [← hxy]
                exact hok y hy

/-- The habit used by the C9 witness after a successful rename. -/
def habitBookRenamed : Habit := { habitBook with name := "abcd" }

/-- The C9 witness store after the rename. -/
def storeBookRenamed : Store := { storeBook with habits := [habitBookRenamed] }

/-- C9 witness: creating a habit named `ab` in `storeBook` is rejected,
and after the accepted rename of habit 1 to `abcd` every stored habit
still has a name of length ≥ 3. -/
theorem habit_name_min_three_witness :
    isValidationError (habitCreate storeBook 7 { name := some "ab" }) = true ∧
    habitNamesOk storeBookRenamed :=
  ⟨(habit_name_min_three storeBook 7 { name := some "ab" }).1
      (Or.inr ⟨"ab", rfl, by decide⟩),
   ((habit_name_min_three storeBook 7 { name := some "abcd" }).2
        (by unfold habitNamesOk; decide)).2
      1 true storeBookRenamed habitBookRenamed (by rfl)⟩

/-- C10: a habit update (full or partial) rewrites only the habit row
addressed by the pk: the entry table is untouched and every other habit
row is kept as it was. -/
theorem habit_update_frame (s : Store) (u pk : Nat) (p : HabitPayload) (pm : Bool)
    (s2 : Store) (h2 : Habit)
    (hup : habitUpdate s u pk p pm = Except.ok (s2, h2)) :
    s2.entries = s.entries ∧ h2.id = pk ∧
    s2.habits = s.habits.map (fun x => if x.id == pk then h2 else x) := by
  unfold habitUpdate at hup
  cases hg : habitGetObject s u pk with
  | error e => rw [hg] at hup; simp at hup
  | ok h0 =>
      rw [hg] at hup
      cases hv : habitRunValidation p pm with
      | error e => rw [hv] at hup; simp at hup
      | ok a =>
          rw [hv] at hup
          simp at hup
          obtain ⟨hs2, hh2⟩ := hup
          have hid0 : h0.id = pk := (habitGetObject_ok_inv hg).2.2
          have hid2 : h2.id = pk := by
            rw [← hh2]
            unfold applyHabitPayload
            simpa using hid0
          refine ⟨by rw [← hs2]; rfl, hid2, ?_⟩
          rw [← hs2]
          unfold saveHabitRow
          rw [hh2, hid2]

/-- The habit of the C10 witness after its type is switched to singular. -/
def habitBookSingular : Habit := { habitBook with type := HabitType.singular }

/-- The C10 witness store after the type switch. -/
def storeBookSingular : Store := { storeBook with habits := [habitBookSingular] }

/-- C10 witness: switching timed habit 1 to singular succeeds and leaves
the entry table unchanged, so the entry with value 45 stays attached to
the now-singular habit. -/
theorem habit_update_frame_witness :
    habitUpdate storeBook 7 1 { type := some HabitType.singular } true =
      Except.ok (storeBookSingular, habitBookSingular) ∧
    storeBookSingular.entries = storeBook.entries ∧
    habitBookSingular.type = HabitType.singular ∧
    entryBook.value = 45 :=
  ⟨by rfl,
   (habit_update_frame storeBook 7 1 { type := some HabitType.singular } true
      storeBookSingular habitBookSingular (by rfl)).1,
   rfl, rfl⟩

/-! ## Entry-pipeline inversion lemmas -/

theorem validate_habit_ok_inv {h : Habit} {u : Nat} {h2 : Habit}
    (hv : validate_habit h u = Except.ok h2) :
    h2 = h ∧ h.userId = u ∧ h.archivedAt = none := by
  unfold validate_habit at hv
  by_cases h1 : h.userId ≠ u
  · simp [h1] at hv
  · by_cases hc : h.archivedAt ≠ none
    · simp [h1, hc] at hv
    · push_neg at h1 hc
      simp [h1, hc] at hv
      exact ⟨hv.symm, h1, hc⟩

theorem validate_habit_error_validation {h : Habit} {u : Nat} {e : ApiError}
    (hv : validate_habit h u = Except.error e) :
    ∃ m, e = ApiError.validation m := by
  unfold validate_habit at hv
  by_cases h1 : h.userId ≠ u
  · simp [h1] at hv
    exact ⟨_, hv.symm⟩
  · by_cases hc : h.archivedAt ≠ none
    · simp [h1, hc] at hv
      exact ⟨_, hv.symm⟩
    · simp [h1, hc] at hv

theorem checkHabitField_ok_inv {s : Store} {u : Nat} {p : EntryPayload} {pm : Bool}
    {hopt : Option Habit} (hc : checkHabitField s u p pm = Except.ok hopt) :
    (∀ hid, p.habit = some hid →
      ∃ hOb, s.habits.find? (fun x => x.id == hid) = some hOb ∧ hopt = some hOb ∧
        hOb.userId = u ∧ hOb.archivedAt = none) ∧
    (p.habit = none → hopt = none) := by
  cases hp : p.habit with
  | none =>
      refine ⟨fun hid hcon => Option.noConfusion hcon, fun _ => ?_⟩
      cases pm with
      | true => simp [checkHabitField, hp] at hc; exact hc.symm
      | false => simp [checkHabitField, hp] at hc
  | some hid0 =>
      refine ⟨fun hid hsome => ?_, fun hcon => Option.noConfusion hcon⟩
      injection hsome with hsome2
      subst hsome2
      cases hf : s.habits.find? (fun x => x.id == hid0) with
      | none => simp [checkHabitField, hp, hf] at hc
      | some hOb =>
          cases hv : validate_habit hOb u with
          | error e => simp [checkHabitField, hp, hf, hv] at hc
          | ok h2 =>
              have hinv := validate_habit_ok_inv hv
              simp [checkHabitField, hp, hf, hv] at hc
              exact ⟨hOb, rfl, by rw [← hc, hinv.1], hinv.2.1, hinv.2.2⟩

theorem checkHabitField_error_validation {s : Store} {u : Nat} {p : EntryPayload}
    {pm : Bool} {e : ApiError} (hc : checkHabitField s u p pm = Except.error e) :
    ∃ m, e = ApiError.validation m := by
  cases hp : p.habit with
  | none =>
      cases pm with
      | true => simp [checkHabitField, hp] at hc
      | false =>
          simp [checkHabitField, hp] at hc
          exact ⟨_, hc.symm⟩
  | some hid0 =>
      cases hf : s.habits.find? (fun x => x.id == hid0) with
      | none =>
          simp [checkHabitField, hp, hf] at hc
          exact ⟨_, hc.symm⟩
      | some hOb =>
          cases hv : validate_habit hOb u with
          | error e2 =>
              simp [checkHabitField, hp, hf, hv] at hc
              rw [← hc]
              exact validate_habit_error_validation hv
          | ok h2 => simp [checkHabitField, hp, hf, hv] at hc

theorem checkEntryDateField_ok_inv {p : EntryPayload} {pm : Bool} {dopt : Option Nat}
    (hc : checkEntryDateField p pm = Except.ok dopt) :
    dopt = p.entryDate ∧ (p.entryDate = none → pm = true) := by
  cases hd : p.entryDate with
  | none =>
      cases pm with
      | true => simp [checkEntryDateField, hd] at hc; simp [hc]
      | false => simp [checkEntryDateField, hd] at hc
  | some d =>
      simp [checkEntryDateField, hd] at hc
      exact ⟨by simp [hc], fun hcon => Option.noConfusion hcon⟩

theorem checkEntryDateField_error_validation {p : EntryPayload} {pm : Bool} {e : ApiError}
    (hc : checkEntryDateField p pm = Except.error e) :
    ∃ m, e = ApiError.validation m := by
  cases hd : p.entryDate with
  | none =>
      cases pm with
      | true => simp [checkEntryDateField, hd] at hc
      | false =>
          simp [checkEntryDateField, hd] at hc
          exact ⟨_, hc.symm⟩
  | some d => simp [checkEntryDateField, hd] at hc

theorem checkValueField_ok_inv {p : EntryPayload} {vopt : Option Int}
    (hc : checkValueField p = Except.ok vopt) : vopt = p.value := by
  cases hv : p.value with
  | none => simp [checkValueField, hv] at hc; simp [hc]
  | some v =>
      by_cases hneg : v < 0
      · simp [checkValueField, hv, hneg] at hc
      · simp [checkValueField, hv, hneg] at hc
        simp [hc]

theorem checkValueField_error_validation {p : EntryPayload} {e : ApiError}
    (hc : checkValueField p = Except.error e) :
    ∃ m, e = ApiError.validation m := by
  cases hv : p.value with
  | none => simp [checkValueField, hv] at hc
  | some v =>
      by_cases hneg : v < 0
      · simp [checkValueField, hv, hneg] at hc
        exact ⟨_, hc.symm⟩
      · simp [checkValueField, hv, hneg] at hc

theorem entryToInternalValue_ok_inv {s : Store} {u : Nat} {p : EntryPayload} {pm : Bool}
    {attrs : EntryAttrs} (hc : entryToInternalValue s u p pm = Except.ok attrs) :
    checkHabitField s u p pm = Except.ok attrs.habit ∧
    checkEntryDateField p pm = Except.ok attrs.entryDate ∧
    checkValueField p = Except.ok attrs.value ∧ attrs.notes = p.notes := by
  cases h1 : checkHabitField s u p pm with
  | error e => simp [entryToInternalValue, h1] at hc
  | ok hopt =>
      cases h2 : checkEntryDateField p pm with
      | error e => simp [entryToInternalValue, h1, h2] at hc
      | ok dopt =>
          cases h3 : checkValueField p with
          | error e => simp [entryToInternalValue, h1, h2, h3] at hc
          | ok vopt =>
              simp [entryToInternalValue, h1, h2, h3] at hc
              subst hc
              exact ⟨rfl, rfl, rfl, rfl⟩

theorem entryToInternalValue_error_validation {s : Store} {u : Nat} {p : EntryPayload}
    {pm : Bool} {e : ApiError} (hc : entryToInternalValue s u p pm = Except.error e) :
    ∃ m, e = ApiError.validation m := by
  cases h1 : checkHabitField s u p pm with
  | error e1 =>
      simp [entryToInternalValue, h1] at hc
      rw [← hc]
      exact checkHabitField_error_validation h1
  | ok hopt =>
      cases h2 : checkEntryDateField p pm with
      | error e2 =>
          simp [entryToInternalValue, h1, h2] at hc
          rw [← hc]
          exact checkEntryDateField_error_validation h2
      | ok dopt =>
          cases h3 : checkValueField p with
          | error e3 =>
              simp [entryToInternalValue, h1, h2, h3] at hc
              rw [← hc]
              exact checkValueField_error_validation h3
          | ok vopt => simp [entryToInternalValue, h1, h2, h3] at hc

theorem fillFromInstance_habit_some {s : Store} {inst : Option HabitEntry}
    {attrs : EntryAttrs} {hOb : Habit} (hh : attrs.habit = some hOb) :
    (fillFromInstance s inst attrs).habit = some hOb := by
  cases inst with
  | none => simp [fillFromInstance, hh]
  | some e0 => simp [fillFromInstance, hh]

theorem fillFromInstance_value {s : Store} {inst : Option HabitEntry}
    {attrs : EntryAttrs} : (fillFromInstance s inst attrs).value = attrs.value := by
  cases inst with
  | none => simp [fillFromInstance]
  | some e0 => simp [fillFromInstance]

theorem entryUniqueValidator_ok_inv {s : Store} {inst : Option HabitEntry}
    {attrs attrs2 : EntryAttrs}
    (hc : entryUniqueValidator s inst attrs = Except.ok attrs2) :
    attrs2 = fillFromInstance s inst attrs := by
  cases hh : (fillFromInstance s inst attrs).habit with
  | none => simp [entryUniqueValidator, hh] at hc; simp [hc]
  | some hOb =>
      cases hd : (fillFromInstance s inst attrs).entryDate with
      | none => simp [entryUniqueValidator, hh, hd] at hc; simp [hc]
      | some d =>
          by_cases hemp : uniqueClash s inst hOb d = []
          · simp [entryUniqueValidator, hh, hd, List.isEmpty_iff, hemp] at hc
            simp [hc]
          · simp [entryUniqueValidator, hh, hd, List.isEmpty_iff, hemp] at hc

theorem entryUniqueValidator_none_clash {s : Store} {attrs attrs2 : EntryAttrs}
    {hOb : Habit} {d : Nat}
    (hc : entryUniqueValidator s none attrs = Except.ok attrs2)
    (hh : attrs.habit = some hOb) (hd : attrs.entryDate = some d) :
    s.entries.filter (fun e => e.habitId == hOb.id && e.entryDate == d) = [] := by
  have hfill : fillFromInstance s none attrs = attrs := by simp [fillFromInstance]
  by_cases hemp : uniqueClash s none hOb d = []
  · simpa [uniqueClash] using hemp
  · simp [entryUniqueValidator, hfill, hh, hd, List.isEmpty_iff, hemp] at hc

theorem entryUniqueValidator_error_validation {s : Store} {inst : Option HabitEntry}
    {attrs : EntryAttrs} {e : ApiError}
    (hc : entryUniqueValidator s inst attrs = Except.error e) :
    ∃ m, e = ApiError.validation m := by
  cases hh : (fillFromInstance s inst attrs).habit with
  | none => simp [entryUniqueValidator, hh] at hc
  | some hOb =>
      cases hd : (fillFromInstance s inst attrs).entryDate with
      | none => simp [entryUniqueValidator, hh, hd] at hc
      | some d =>
          by_cases hemp : uniqueClash s inst hOb d = []
          · simp [entryUniqueValidator, hh, hd, List.isEmpty_iff, hemp] at hc
          · simp [entryUniqueValidator, hh, hd, List.isEmpty_iff, hemp] at hc
            exact ⟨_, hc.symm⟩

theorem entryValidate_ok_inv {attrs attrs2 : EntryAttrs}
    (hc : entryValidate attrs = Except.ok attrs2) : attrs2 = attrs := by
  cases hh : attrs.habit with
  | none => simp [entryValidate, hh] at hc; simp [hc]
  | some hOb =>
      cases hv : attrs.value with
      | none => simp [entryValidate, hh, hv] at hc; simp [hc]
      | some v =>
          by_cases h1 : hOb.type = HabitType.singular ∧ v ≠ 1
          · simp [entryValidate, hh, hv, h1] at hc
          · by_cases h2 : hOb.type = HabitType.timed ∧ v ≤ 0
            · simp [entryValidate, hh, hv, h1, h2] at hc
            · simp [entryValidate, hh, hv, h1, h2] at hc
              simp [hc]

theorem entryValidate_error_validation {attrs : EntryAttrs} {e : ApiError}
    (hc : entryValidate attrs = Except.error e) :
    ∃ m, e = ApiError.validation m := by
  cases hh : attrs.habit with
  | none => simp [entryValidate, hh] at hc
  | some hOb =>
      cases hv : attrs.value with
      | none => simp [entryValidate, hh, hv] at hc
      | some v =>
          by_cases h1 : hOb.type = HabitType.singular ∧ v ≠ 1
          · simp [entryValidate, hh, hv, h1] at hc
            exact ⟨_, hc.symm⟩
          · by_cases h2 : hOb.type = HabitType.timed ∧ v ≤ 0
            · simp [entryValidate, hh, hv, h1, h2] at hc
              exact ⟨_, hc.symm⟩
            · simp [entryValidate, hh, hv, h1, h2] at hc

theorem entryValidate_mismatch {attrs : EntryAttrs} {hOb : Habit} {v : Int}
    (hh : attrs.habit = some hOb) (hv : attrs.value = some v)
    (hmis : (hOb.type = HabitType.singular ∧ v ≠ 1) ∨
      (hOb.type = HabitType.timed ∧ v ≤ 0)) :
    isValidationError (entryValidate attrs) = true := by
  rcases hmis with ⟨ht, hne⟩ | ⟨ht, hle⟩
  · simp [entryValidate, hh, hv, ht, hne, isValidationError]
  · simp [entryValidate, hh, hv, ht, hle, isValidationError]

theorem entryRunValidation_error_validation {s : Store} {u : Nat}
    {inst : Option HabitEntry} {p : EntryPayload} {pm : Bool} {e : ApiError}
    (hc : entryRunValidation s u inst p pm = Except.error e) :
    ∃ m, e = ApiError.validation m := by
  cases h1 : entryToInternalValue s u p pm with
  | error e1 =>
      simp [entryRunValidation, h1] at hc
      subst hc
      exact entryToInternalValue_error_validation h1
  | ok attrs =>
      cases h2 : entryUniqueValidator s inst attrs with
      | error e2 =>
          simp [entryRunValidation, h1, h2] at hc
          subst hc
          exact entryUniqueValidator_error_validation h2
      | ok attrs2 =>
          simp [entryRunValidation, h1, h2] at hc
          exact entryValidate_error_validation hc

theorem entryCreate_error_validation {s : Store} {u : Nat} {p : EntryPayload}
    {e : ApiError} (hc : entryCreate s u p = Except.error e) :
    ∃ m, e = ApiError.validation m := by
  cases h1 : entryRunValidation s u none p false with
  | error e1 =>
      simp [entryCreate, h1] at hc
      subst hc
      exact entryRunValidation_error_validation h1
  | ok attrs =>
      cases hh : attrs.habit with
      | none => simp [entryCreate, h1, hh] at hc; exact ⟨_, hc.symm⟩
      | some hOb =>
          cases hd : attrs.entryDate with
          | none => simp [entryCreate, h1, hh, hd] at hc; exact ⟨_, hc.symm⟩
          | some d => simp [entryCreate, h1, hh, hd] at hc

theorem isValidationError_create_of_runval {s : Store} {u : Nat} {p : EntryPayload}
    (h : isValidationError (entryRunValidation s u none p false) = true) :
    isValidationError (entryCreate s u p) = true := by
  rw [isValidationError_iff] at h
  obtain ⟨m, hm⟩ := h
  rw [isValidationError_iff]
  exact ⟨m, by simp [entryCreate, hm]⟩

theorem isValidationError_update_of_runval {s : Store} {u pk : Nat} {p : EntryPayload}
    {pm : Bool} {e0 : HabitEntry}
    (hg : entryGetObject s u pk = Except.ok e0)
    (h : isValidationError (entryRunValidation s u (some e0) p pm) = true) :
    isValidationError (entryUpdate s u pk p pm) = true := by
  rw [isValidationError_iff] at h
  obtain ⟨m, hm⟩ := h
  rw [isValidationError_iff]
  exact ⟨m, by simp [entryUpdate, hg, hm]⟩

theorem entryRunValidation_mismatch_habit {s : Store} {u : Nat}
    {inst : Option HabitEntry} {p : EntryPayload} {pm : Bool} {hid : Nat}
    {hOb : Habit} {v : Int}
    (hp : p.habit = some hid)
    (hfind : s.habits.find? (fun x => x.id == hid) = some hOb)
    (hv : p.value = some v)
    (hmis : (hOb.type = HabitType.singular ∧ v ≠ 1) ∨
      (hOb.type = HabitType.timed ∧ v ≤ 0)) :
    isValidationError (entryRunValidation s u inst p pm) = true := by
  cases h1 : entryToInternalValue s u p pm with
  | error e1 =>
      obtain ⟨m, hm⟩ := entryToInternalValue_error_validation h1
      subst hm
      simp [entryRunValidation, h1, isValidationError]
  | ok attrs =>
      obtain ⟨hch, hcd, hcv, hcn⟩ := entryToInternalValue_ok_inv h1
      obtain ⟨hOb2, hf2, hh2, -, -⟩ := (checkHabitField_ok_inv hch).1 hid hp
      rw [hfind] at hf2
      injection hf2 with hf2
      subst hf2
      have hval : attrs.value = some v := by
        rw [checkValueField_ok_inv hcv, hv]
      cases h2 : entryUniqueValidator s inst attrs with
      | error e2 =>
          obtain ⟨m, hm⟩ := entryUniqueValidator_error_validation h2
          subst hm
          simp [entryRunValidation, h1, h2, isValidationError]
      | ok attrs2 =>
          have ha2 := entryUniqueValidator_ok_inv h2
          have hh3 : attrs2.habit = some hOb := by
            rw [ha2]
            exact fillFromInstance_habit_some hh2
          have hv3 : attrs2.value = some v := by
            rw [ha2, fillFromInstance_value]
            exact hval
          have hval2 := entryValidate_mismatch hh3 hv3 hmis
          simp [entryRunValidation, h1, h2]
          exact hval2

theorem entryRunValidation_mismatch_fill {s : Store} {u : Nat} {e0 : HabitEntry}
    {p : EntryPayload} {pm : Bool} {hOb : Habit} {v : Int}
    (hp : p.habit = none)
    (hfind : s.habits.find? (fun x => x.id == e0.habitId) = some hOb)
    (hv : p.value = some v)
    (hmis : (hOb.type = HabitType.singular ∧ v ≠ 1) ∨
      (hOb.type = HabitType.timed ∧ v ≤ 0)) :
    isValidationError (entryRunValidation s u (some e0) p pm) = true := by
  cases pm with
  | false =>
      have h1 : entryToInternalValue s u p false =
          Except.error (ApiError.validation "habit: This field is required.") := by
        simp [entryToInternalValue, checkHabitField, hp]
      simp [entryRunValidation, h1, isValidationError]
  | true =>
      cases h1 : entryToInternalValue s u p true with
      | error e1 =>
          obtain ⟨m, hm⟩ := entryToInternalValue_error_validation h1
          subst hm
          simp [entryRunValidation, h1, isValidationError]
      | ok attrs =>
          obtain ⟨hch, hcd, hcv, hcn⟩ := entryToInternalValue_ok_inv h1
          have hhn : attrs.habit = none := (checkHabitField_ok_inv hch).2 hp
          have hval : attrs.value = some v := by
            rw [checkValueField_ok_inv hcv, hv]
          cases h2 : entryUniqueValidator s (some e0) attrs with
          | error e2 =>
              obtain ⟨m, hm⟩ := entryUniqueValidator_error_validation h2
              subst hm
              simp [entryRunValidation, h1, h2, isValidationError]
          | ok attrs2 =>
              have ha2 := entryUniqueValidator_ok_inv h2
              have hh3 : attrs2.habit = some hOb := by
                rw [ha2]
                simp [fillFromInstance, hhn, hfind]
              have hv3 : attrs2.value = some v := by
                rw [ha2, fillFromInstance_value]
                exact hval
              have hval2 := entryValidate_mismatch hh3 hv3 hmis
              simp [entryRunValidation, h1, h2]
              exact hval2

/-- C2: an entry whose effective habit is singular with value ≠ 1, or
timed with value ≤ 0, is rejected with a validation error — on create, on
full update, and on partial update (where an unsupplied habit is the
instance's own habit, filled back into the validated data by the
unique-together validator before the cross-field check runs). -/
theorem entry_value_type_rules (s : Store) (u : Nat) (p : EntryPayload)
    (hOb : Habit) (v : Int)
    (hmis : (hOb.type = HabitType.singular ∧ v ≠ 1) ∨
      (hOb.type = HabitType.timed ∧ v ≤ 0))
    (hv : p.value = some v) :
    (∀ hid, p.habit = some hid → s.habits.find? (fun x => x.id == hid) = some hOb →
      isValidationError (entryCreate s u p) = true ∧
      (∀ pk pm e0, entryGetObject s u pk = Except.ok e0 →
        isValidationError (entryUpdate s u pk p pm) = true)) ∧
    (p.habit = none →
      ∀ pk pm e0, entryGetObject s u pk = Except.ok e0 →
        s.habits.find? (fun x => x.id == e0.habitId) = some hOb →
        isValidationError (entryUpdate s u pk p pm) = true) := by
  constructor
  · intro hid hp hfind
    constructor
    · exact isValidationError_create_of_runval
        (entryRunValidation_mismatch_habit hp hfind hv hmis)
    · intro pk pm e0 hg
      exact isValidationError_update_of_runval hg
        (entryRunValidation_mismatch_habit hp hfind hv hmis)
  · intro hp pk pm e0 hg hfind
    exact isValidationError_update_of_runval hg
      (entryRunValidation_mismatch_fill hp hfind hv hmis)

/-- C2 witness: on the timed habit of `storeBook`, a PATCH of entry 1 to
value 0 without resupplying the habit, and a create with value 0, are
both rejected with a validation error. -/
theorem entry_value_type_rules_witness :
    isValidationError (entryUpdate storeBook 7 1 { value := some 0 } true) = true ∧
    isValidationError (entryCreate storeBook 7
      { habit := some 1, entryDate := some 101, value := some 0 }) = true :=
  ⟨(entry_value_type_rules storeBook 7 { value := some 0 } habitBook 0
      (Or.inr ⟨rfl, by decide⟩) rfl).2 rfl 1 true entryBook (by rfl) (by rfl),
   ((entry_value_type_rules storeBook 7
      { habit := some 1, entryDate := some 101, value := some 0 } habitBook 0
      (Or.inr ⟨rfl, by decide⟩) rfl).1 1 rfl (by rfl)).1⟩

/-- The (habit, entry_date) pair is a key: no two distinct rows share it. -/
def entriesUnique (l : List HabitEntry) : Prop :=
  ∀ e1 ∈ l, ∀ e2 ∈ l, e1.habitId = e2.habitId → e1.entryDate = e2.entryDate → e1 = e2

theorem entryRunValidation_create_ok_inv {s : Store} {u : Nat} {p : EntryPayload}
    {attrs : EntryAttrs}
    (h : entryRunValidation s u none p false = Except.ok attrs) :
    entryToInternalValue s u p false = Except.ok attrs ∧
    (∀ hOb d, attrs.habit = some hOb → attrs.entryDate = some d →
      s.entries.filter (fun e => e.habitId == hOb.id && e.entryDate == d) = []) := by
  cases h1 : entryToInternalValue s u p false with
  | error e1 => simp [entryRunValidation, h1] at h
  | ok attrs0 =>
      cases h2 : entryUniqueValidator s none attrs0 with
      | error e2 => simp [entryRunValidation, h1, h2] at h
      | ok attrs1 =>
          simp [entryRunValidation, h1, h2] at h
          have hv1 := entryValidate_ok_inv h
          have hv2 := entryUniqueValidator_ok_inv h2
          have hfill : fillFromInstance s none attrs0 = attrs0 := by
            simp [fillFromInstance]
          have heq : attrs = attrs0 := by rw [hv1, hv2, hfill]
          subst heq
          refine ⟨rfl, fun hOb d hh hd => ?_⟩
          exact entryUniqueValidator_none_clash h2 hh hd

theorem entryCreate_ok_inv {s : Store} {u : Nat} {p : EntryPayload}
    {s2 : Store} {eNew : HabitEntry}
    (hc : entryCreate s u p = Except.ok (s2, eNew)) :
    s2 = { s with entries := s.entries ++ [eNew], nextEntryId := s.nextEntryId + 1 } ∧
    s.entries.filter
      (fun e => e.habitId == eNew.habitId && e.entryDate == eNew.entryDate) = [] ∧
    (∀ hid, p.habit = some hid → eNew.habitId = hid) ∧
    (∀ d, p.entryDate = some d → eNew.entryDate = d) := by
  cases h1 : entryRunValidation s u none p false with
  | error e1 => simp [entryCreate, h1] at hc
  | ok attrs =>
      obtain ⟨htiv, hclash⟩ := entryRunValidation_create_ok_inv h1
      obtain ⟨hch, hcd, hcv, -⟩ := entryToInternalValue_ok_inv htiv
      cases hh : attrs.habit with
      | none => simp [entryCreate, h1, hh] at hc
      | some hOb =>
          cases hd : attrs.entryDate with
          | none => simp [entryCreate, h1, hh, hd] at hc
          | some d =>
              simp [entryCreate, h1, hh, hd] at hc
              obtain ⟨hs2, he⟩ := hc
              have hnew1 : eNew.habitId = hOb.id := by rw [← he]
              have hnew2 : eNew.entryDate = d := by rw [← he]
              rw [he] at hs2
              refine ⟨hs2.symm, ?_, ?_, ?_⟩
              · rw [hnew1, hnew2]
                exact hclash hOb d hh hd
              · intro hid hp
                obtain ⟨hOb2, hf2, hh2, -, -⟩ := (checkHabitField_ok_inv hch).1 hid hp
                rw [hh] at hh2
                injection hh2 with hh2
                have hids : hOb2.id = hid := by simpa using List.find?_some hf2
                rw [hnew1, hh2]
                exact hids
              · intro d2 hpd
                have hdd := (checkEntryDateField_ok_inv hcd).1
                rw [hh] at hch
                rw [hd] at hdd
                rw [hpd] at hdd
                injection hdd with hdd
                rw [hnew2, hdd]

/-- C3: creating an entry whose (habit, entry_date) pair is already
present is rejected with a validation error (so the store is unchanged —
the operation produces no new state), and a store whose entries have
pairwise-distinct (habit, entry_date) keys keeps that invariant across
any successful create. -/
theorem entry_unique_per_day (s : Store) (u : Nat) (p : EntryPayload) (hid d : Nat)
    (hp : p.habit = some hid) (hd : p.entryDate = some d) :
    ((∃ e ∈ s.entries, e.habitId = hid ∧ e.entryDate = d) →
      isValidationError (entryCreate s u p) = true) ∧
    (entriesUnique s.entries →
      ∀ s2 eNew, entryCreate s u p = Except.ok (s2, eNew) → entriesUnique s2.entries) := by
  constructor
  · rintro ⟨e0, he0, hkey1, hkey2⟩
    cases hc : entryCreate s u p with
    | error err =>
        obtain ⟨m, hm⟩ := entryCreate_error_validation hc
        subst hm
        simp [isValidationError]
    | ok pair =>
        exfalso
        obtain ⟨s2, eNew⟩ := pair
        obtain ⟨-, hclash, hhid, hdate⟩ := entryCreate_ok_inv hc
        have h1 : eNew.habitId = hid := hhid hid hp
        have h2 : eNew.entryDate = d := hdate d hd
        have hm : e0 ∈ s.entries.filter
            (fun e => e.habitId == eNew.habitId && e.entryDate == eNew.entryDate) := by
          rw [List.mem_filter]
          exact ⟨he0, by simp [h1, h2, hkey1, hkey2]⟩
        rw [hclash] at hm
        cases hm
  · intro huniq s2 eNew hc
    obtain ⟨hs2, hclash, -, -⟩ := entryCreate_ok_inv hc
    subst hs2
    intro e1 he1 e2 he2 hk1 hk2
    simp only [List.mem_append, List.mem_singleton] at he1 he2
    have hnotold : ∀ e3 ∈ s.entries, e3.habitId = eNew.habitId →
        e3.entryDate = eNew.entryDate → False := by
      intro e3 he3 hk3 hk4
      have hm : e3 ∈ s.entries.filter
          (fun e => e.habitId == eNew.habitId && e.entryDate == eNew.entryDate) := by
        rw [List.mem_filter]
        exact ⟨he3, by simp [hk3, hk4]⟩
      rw [hclash] at hm
      cases hm
    rcases he1 with he1 | he1 <;> rcases he2 with he2 | he2
    · exact huniq e1 he1 e2 he2 hk1 hk2
    · exact (hnotold e1 he1 (by rw [hk1, he2]) (by rw [hk2, he2])).elim
    · exact (hnotold e2 he2 (by rw [← hk1, he1]) (by rw [← hk2, he1])).elim
    · rw [he1, he2]

/-- The entry inserted by the successful create of the C3 witness. -/
def entryNew : HabitEntry :=
  { id := 2, habitId := 1, userId := 7, entryDate := 101, value := 30, notes := none }

/-- The C3 witness store after that create. -/
def storeBookNew : Store :=
  { habits := [habitBook], entries := [entryBook, entryNew],
    nextHabitId := 2, nextEntryId := 3 }

/-- C3 witness: a second entry for habit 1 on day 100 is rejected, and
after the accepted create for day 101 the key uniqueness still holds. -/
theorem entry_unique_per_day_witness :
    isValidationError (entryCreate storeBook 7
      { habit := some 1, entryDate := some 100, value := some 30 }) = true ∧
    entriesUnique storeBookNew.entries :=
  ⟨(entry_unique_per_day storeBook 7
      { habit := some 1, entryDate := some 100, value := some 30 } 1 100 rfl rfl).1
      ⟨entryBook, by decide, rfl, rfl⟩,
   (entry_unique_per_day storeBook 7
      { habit := some 1, entryDate := some 101, value := some 30 } 1 101 rfl rfl).2
      (by unfold entriesUnique; decide) storeBookNew entryNew (by rfl)⟩

end RoutineGrid
